import Mathlib

/-!
# Verification of the ECHONET Lite air-conditioner controller

A shallow embedding of `ac_controller.py`: the frame codec (`create_frame`),
the sensor-body parser (`number`, `get_sensor_info`), the device-session
operations (`turn_on`), the discovery transport (`find_air_conditioner`)
and the CLI dispatch of the `__main__` block, together with theorems about
them.

Bytes are modelled as `Nat` (with explicit `≤ 255` range checks exactly
where the Python runtime enforces them: `bytearray.append` raises
`ValueError` outside `0..255`, `int.to_bytes(1, 'big')` raises
`OverflowError` outside `0..255`), byte strings as `List Nat`, and
fallible operations return `Option`.
-/

namespace AcController

/-- The `Service` enum of the source: ECHONET Lite service (ESV) codes. -/
inductive Service
  | SET_I
  | SET_C
  | GET
  | INF_REQ
  | SET_GET
deriving DecidableEq, Repr

/-- The one-byte code of each service, as in the source enum. -/
def Service.value : Service → Nat
  | .SET_I => 0x60
  | .SET_C => 0x61
  | .GET => 0x62
  | .INF_REQ => 0x63
  | .SET_GET => 0x6e

/-- The `Property` enum of the source: ECHONET Lite property (EPC) codes. -/
inductive Property
  | STATUS
  | MODE
  | TEMPERATURE
deriving DecidableEq, Repr

/-- The one-byte code of each property, as in the source enum. -/
def Property.value : Property → Nat
  | .STATUS => 0x80
  | .MODE => 0xb0
  | .TEMPERATURE => 0xb3

/-- The `Status` enum of the source; each value is a one-byte byte string. -/
inductive Status
  | ON
  | OFF
deriving DecidableEq, Repr

/-- The byte-string value of each status, as in the source enum. -/
def Status.value : Status → List Nat
  | .ON => [0x30]
  | .OFF => [0x31]

/-- The `Mode` enum of the source; each value is a one-byte byte string. -/
inductive Mode
  | AUTOMATIC
  | COOLING
  | HEATING
  | DEHUMIDIFICATION
  | AIR_CIRCULATOR
  | OTHER
deriving DecidableEq, Repr

/-- The byte-string value of each mode, as in the source enum. -/
def Mode.value : Mode → List Nat
  | .AUTOMATIC => [0x41]
  | .COOLING => [0x42]
  | .HEATING => [0x43]
  | .DEHUMIDIFICATION => [0x44]
  | .AIR_CIRCULATOR => [0x45]
  | .OTHER => [0x40]

/-- `MULTICAST_ADDRESS = '224.0.23.0'` of the source. -/
def MULTICAST_ADDRESS : String := "224.0.23.0"

/-- `PORT = 3610` of the source. -/
def PORT : Nat := 3610

/-- `SOCKET_BUFSIZ = 4096` of the source. -/
def SOCKET_BUFSIZ : Nat := 4096

/-- The ten fixed leading bytes of every frame:
`bytearray.fromhex('1081' + '0000' + '05ff01' + '013001')` —
EHD, TID, SEOJ (Controller), DEOJ (Home air conditioner). -/
def FIXED_HEADER : List Nat := [0x10, 0x81, 0x00, 0x00, 0x05, 0xff, 0x01, 0x01, 0x30, 0x01]

/-- `bytearray.append(b)`: succeeds exactly when `b` fits in one byte,
otherwise Python raises `ValueError` (modelled as `none`). -/
def appendByte (f : List Nat) (b : Nat) : Option (List Nat) :=
  if b ≤ 255 then some (f ++ [b]) else none

/-- One iteration of the property loop of `create_frame`:
`f.append(k.value); f.append(len(v)); f.extend(v)`. -/
def appendProperty (f : List Nat) (kv : Property × List Nat) : Option (List Nat) :=
  (appendByte f kv.1.value).bind fun f1 =>
    (appendByte f1 kv.2.length).map fun f2 => f2 ++ kv.2

/-- The `for k, v in properties.items()` loop of `create_frame`, iterating
in insertion order of the mapping. -/
def appendProperties : List Nat → List (Property × List Nat) → Option (List Nat)
  | f, [] => some f
  | f, kv :: rest =>
    match appendProperty f kv with
    | none => none
    | some f2 => appendProperties f2 rest

/-- `create_frame(service, properties)` of the source.  A Python dict is
embedded as its (insertion-ordered) list of key/value pairs.  `none`
models the `ValueError` raised by `bytearray.append` when the property
count or a value length exceeds one byte. -/
def create_frame (service : Service) (properties : List (Property × List Nat)) :
    Option (List Nat) :=
  (appendByte FIXED_HEADER service.value).bind fun f1 =>
    (appendByte f1 properties.length).bind fun f2 =>
      appendProperties f2 properties

/-- The bytes `[EPC, PDC] ++ EDT` one property entry contributes to a frame. -/
def propBytes (kv : Property × List Nat) : List Nat :=
  kv.1.value :: kv.2.length :: kv.2

/-- The full layout of a successfully encoded frame, as a pure function:
fixed header, service code, property count, then the property entries in
list order. -/
def frameBytes (service : Service) (properties : List (Property × List Nat)) : List Nat :=
  FIXED_HEADER ++ service.value :: properties.length :: properties.flatMap propBytes

/-- `temperature.to_bytes(1, byteorder='big')`: the one-byte big-endian
encoding of an `int`, raising `OverflowError` (modelled as `none`) unless
`0 ≤ temperature ≤ 255`. -/
def int_to_byte (t : Int) : Option (List Nat) :=
  if 0 ≤ t ∧ t ≤ 255 then some [t.toNat] else none

/-- The property mapping `p` built by `turn_on(host, mode, temperature)`:
STATUS=ON and MODE=mode always; TEMPERATURE is added (at the end, as a
fresh dict key) only when `temperature >= 0`, and its value is
`temperature.to_bytes(1, 'big')`, which can overflow. -/
def turn_on_props (mode : Mode) (temperature : Int) :
    Option (List (Property × List Nat)) :=
  let p := [(Property.STATUS, Status.ON.value), (Property.MODE, mode.value)]
  if 0 ≤ temperature then
    (int_to_byte temperature).map fun b => p ++ [(Property.TEMPERATURE, b)]
  else
    some p

/-- The frame `turn_on(host, mode, temperature)` builds and sends:
`create_frame(Service.SET_I, p)`.  `none` models an exception raised
before any frame is built or sent. -/
def turn_on_frame (mode : Mode) (temperature : Int) : Option (List Nat) :=
  (turn_on_props mode temperature).bind (create_frame Service.SET_I)

/-- `e.split(sep, 1)` on a character list: split at the first occurrence
of `sep` only.  Python returns a one-element list when `sep` is absent;
that case is modelled as `none` (so `some (k, v)` is the two-element
result `[k, v]`). -/
def splitOnce (sep : Char) : List Char → Option (List Char × List Char)
  | [] => none
  | c :: cs =>
    if c = sep then some ([], cs)
    else (splitOnce sep cs).map fun p => (c :: p.1, p.2)

/-- `s.split(sep)` on a character list, for a one-character separator:
Python semantics, so the result is always nonempty and empty pieces are
kept (`''.split(',') == ['']`). -/
def splitAll (sep : Char) : List Char → List (List Char)
  | [] => [[]]
  | c :: cs =>
    match splitAll sep cs with
    | [] => [[]]
    | h :: t => if c = sep then [] :: h :: t else (c :: h) :: t

/-- A nonempty all-digit character list read as a natural number; `none`
otherwise.  Used to model the digit runs accepted by Python `int()` and
`float()`. -/
def parseDigits (l : List Char) : Option Nat :=
  if l ≠ [] ∧ l.all Char.isDigit then
    some (l.foldl (fun n c => 10 * n + (c.toNat - 48)) 0)
  else none

/-- Python `int(v)` on a string: an optional sign followed by a nonempty
run of digits, else `ValueError` (`none`).  Modelled from the builtin for
strings without surrounding whitespace or digit-group underscores, which
the program never produces. -/
def pyInt : List Char → Option Int
  | '+' :: rest => (parseDigits rest).map Int.ofNat
  | '-' :: rest => (parseDigits rest).map fun n => -(n : Int)
  | l => (parseDigits l).map Int.ofNat

/-- The unsigned mantissa accepted by Python `float()`: digits, optionally
with one decimal point, at least one digit overall.  The value is kept
exactly, as a rational. -/
def pyFloatMantissa (l : List Char) : Option ℚ :=
  match splitOnce '.' l with
  | none => (parseDigits l).map fun n => (n : ℚ)
  | some (a, b) =>
    if a.all Char.isDigit ∧ b.all Char.isDigit ∧ (a ≠ [] ∨ b ≠ []) then
      some ((a.foldl (fun n c => 10 * n + (c.toNat - 48)) 0 : ℚ) +
        (b.foldl (fun n c => 10 * n + (c.toNat - 48)) 0 : ℚ) / (10 : ℚ) ^ b.length)
    else none

/-- The mantissa-with-optional-exponent part of Python `float()`:
`mantissa [ (e|E) [sign] digits ]`. -/
def pyFloatUnsigned (l : List Char) : Option ℚ :=
  match splitOnce 'e' l, splitOnce 'E' l with
  | none, none => pyFloatMantissa l
  | some (m, ex), none =>
    (pyFloatMantissa m).bind fun mv =>
      (pyInt ex).map fun ev => mv * (10 : ℚ) ^ ev
  | _, some (m, ex) =>
    (pyFloatMantissa m).bind fun mv =>
      (pyInt ex).map fun ev => mv * (10 : ℚ) ^ ev

/-- Python `float(v)` on a string: optional sign, then
`pyFloatUnsigned`; else `ValueError` (`none`).  The value is exact as a
rational (exact for every finite decimal the device can send, including
every value this development evaluates); the special texts
`inf`/`nan` and surrounding whitespace are outside the model. -/
def pyFloat : List Char → Option ℚ
  | '+' :: rest => pyFloatUnsigned rest
  | '-' :: rest => (pyFloatUnsigned rest).map Neg.neg
  | l => pyFloatUnsigned l

/-- The numeric-or-text value of one sensor entry. -/
inductive Value
  | int (n : Int)
  | float (q : ℚ)
  | str (s : String)
deriving DecidableEq, Repr

/-- `number(v)` of the source: try `int`, then `float`, else keep the
text as-is. -/
def number (v : List Char) : Value :=
  match pyInt v with
  | some n => Value.int n
  | none =>
    match pyFloat v with
    | some q => Value.float q
    | none => Value.str (String.mk v)

/-- `info[k] = v` on a Python dict embedded as an insertion-ordered
association list: an existing key keeps its position and gets the new
value, a fresh key is appended. -/
def dictInsert (info : List (String × Value)) (k : String) (v : Value) :
    List (String × Value) :=
  if info.any fun p => p.1 = k then
    info.map fun p => if p.1 = k then (k, v) else p
  else
    info ++ [(k, v)]

/-- The `for e in body.split(',')` loop of `get_sensor_info`:
`kv = e.split('=', 1); info[kv[0]] = number(kv[1])`.  When an entry has no
`=`, `kv` has one element and `kv[1]` raises `IndexError` (`none`). -/
def parseEntries : List (String × Value) → List (List Char) → Option (List (String × Value))
  | info, [] => some info
  | info, e :: rest =>
    match splitOnce '=' e with
    | none => none
    | some kv => parseEntries (dictInsert info (String.mk kv.1) (number kv.2)) rest

/-- `get_sensor_info` of the source, applied to the decoded HTTP response
body (the HTTP exchange itself is an oracle supplying `body`). -/
def get_sensor_info (body : List Char) : Option (List (String × Value)) :=
  parseEntries [] (splitAll ',' body)

/-- One inbound UDP datagram, as seen by `recvfrom`: payload plus the
sender's `(ip, port)` address pair. -/
structure Datagram where
  payload : List Nat
  srcIp : String
  srcPort : Nat
deriving DecidableEq, Repr

/-- A socket operation performed by `find_air_conditioner`, in order. -/
inductive SocketEvent
  | bindTo (addr : String) (port : Nat)
  | sendto (payload : List Nat) (addr : String) (port : Nat)
  | recvfrom (bufsiz : Nat)
deriving DecidableEq, Repr

/-- `find_air_conditioner()` of the source, with the single datagram the
blocking `recvfrom` returns supplied as an oracle: build the GET/STATUS
frame, bind to `0.0.0.0:PORT`, send to the multicast group, receive once,
and return `address[0]` — the sender's IP, the payload unused. -/
def find_air_conditioner (incoming : Datagram) :
    Option (List SocketEvent × String) :=
  (create_frame Service.GET [(Property.STATUS, [])]).map fun f =>
    ([SocketEvent.bindTo "0.0.0.0" PORT,
      SocketEvent.sendto f MULTICAST_ADDRESS PORT,
      SocketEvent.recvfrom SOCKET_BUFSIZ],
     incoming.srcIp)

/-- What the `__main__` block does before any branching on `argv[1]`:
either `print_usage_and_exit()` (usage message, `sys.exit(1)`, no network
activity), or fall through to `find_air_conditioner()`, the first network
call, reached unconditionally whenever `len(sys.argv) == 2`. -/
inductive MainFirstStep
  | usageExit (code : Nat)
  | discover
deriving DecidableEq, Repr

/-- The guard of the `__main__` block (source lines 107–111): `argv`
includes the program name, so a single positional argument means
`argv.length = 2`; any other length prints usage and exits with status 1,
and otherwise `find_air_conditioner()` is called before `argv[1]` is ever
compared with `'off'`, `'on'` or `'info'`. -/
def main_start (argv : List String) : MainFirstStep :=
  if argv.length ≠ 2 then MainFirstStep.usageExit 1 else MainFirstStep.discover

/-! ## Helper lemmas about the codec -/

theorem service_code_le_byte (s : Service) : s.value ≤ 255 := by
  cases s <;> decide

theorem property_code_le_byte (p : Property) : p.value ≤ 255 := by
  cases p <;> decide

theorem Property.value_injective (p q : Property) (h : p.value = q.value) : p = q := by
  cases p <;> cases q <;> first | rfl | exact absurd h (by decide)

theorem Mode.value_length (m : Mode) : m.value.length = 1 := by
  cases m <;> rfl

theorem appendProperty_eq (f : List Nat) (kv : Property × List Nat)
    (h : kv.2.length ≤ 255) :
    appendProperty f kv = some (f ++ propBytes kv) := by
  simp [appendProperty, appendByte, property_code_le_byte kv.1, h, propBytes]

theorem appendProperties_eq (l : List (Property × List Nat)) (f : List Nat)
    (h : ∀ kv ∈ l, kv.2.length ≤ 255) :
    appendProperties f l = some (f ++ l.flatMap propBytes) := by
  induction l generalizing f with
  | nil => simp [appendProperties]
  | cons kv rest ih =>
    have hkv : kv.2.length ≤ 255 := h kv (List.mem_cons_self kv rest)
    have step : appendProperties f (kv :: rest) = appendProperties (f ++ propBytes kv) rest := by
      rw [appendProperties, appendProperty_eq f kv hkv]
    rw [step, ih (f ++ propBytes kv) fun kv' h' => h kv' (List.mem_cons_of_mem kv h')]
    simp [List.flatMap_cons]

theorem appendProperties_none (l : List (Property × List Nat)) (f : List Nat)
    (h : ∃ kv ∈ l, 255 < kv.2.length) :
    appendProperties f l = none := by
  induction l generalizing f with
  | nil => simp at h
  | cons kv rest ih =>
    rcases h with ⟨kv', hmem, hlen⟩
    rcases List.mem_cons.mp hmem with rfl | hmem'
    · have hap : appendProperty f kv' = none := by
        simp [appendProperty, appendByte, property_code_le_byte kv'.1,
          show ¬ kv'.2.length ≤ 255 from by omega]
      simp [appendProperties, hap]
    · cases hap : appendProperty f kv with
      | none => simp [appendProperties, hap]
      | some f2 =>
        simp only [appendProperties, hap]
        exact ih f2 ⟨kv', hmem', hlen⟩

theorem create_frame_eq (s : Service) (l : List (Property × List Nat))
    (h1 : l.length ≤ 255) (h2 : ∀ kv ∈ l, kv.2.length ≤ 255) :
    create_frame s l = some (frameBytes s l) := by
  simp [create_frame, appendByte, service_code_le_byte s, h1,
    appendProperties_eq l _ h2, frameBytes]

theorem flatMap_propBytes_length (l : List (Property × List Nat)) :
    (l.flatMap propBytes).length = 2 * l.length + (l.map fun kv => kv.2.length).sum := by
  induction l with
  | nil => rfl
  | cons kv rest ih =>
    simp only [List.flatMap_cons, List.length_append, List.length_cons, List.map_cons,
      List.sum_cons, propBytes, ih]
    omega

theorem flatMap_propBytes_ne (l1 : List (Property × List Nat)) :
    ∀ l2, (l1.map Prod.fst).Nodup → l1.Perm l2 → l1 ≠ l2 →
      l1.flatMap propBytes ≠ l2.flatMap propBytes := by
  induction l1 with
  | nil =>
    intro l2 hnd hperm hne
    exact absurd (List.Perm.eq_nil hperm.symm).symm hne
  | cons a t1 ih =>
    intro l2 hnd hperm hne
    cases l2 with
    | nil => exact absurd hperm.length_eq (by simp)
    | cons b t2 =>
      by_cases hab : a = b
      · subst hab
        have hperm' : t1.Perm t2 := hperm.cons_inv
        have hne' : t1 ≠ t2 := fun h => hne (by rw [h])
        have hnd' : (t1.map Prod.fst).Nodup := (List.nodup_cons.mp (by simpa using hnd)).2
        intro h
        apply ih t2 hnd' hperm' hne'
        simpa [List.flatMap_cons] using h
      · have hbmem : b ∈ a :: t1 := hperm.symm.subset (List.mem_cons_self b t2)
        rcases List.mem_cons.mp hbmem with hba | hbt1
        · exact absurd hba.symm hab
        · have hkey : a.1 ≠ b.1 := by
            intro hk
            have h1 : a.1 ∉ t1.map Prod.fst := (List.nodup_cons.mp (by simpa using hnd)).1
            exact h1 (hk ▸ List.mem_map_of_mem Prod.fst hbt1)
          intro h
          simp only [List.flatMap_cons, propBytes, List.cons_append, List.cons.injEq] at h
          exact hkey (Property.value_injective a.1 b.1 h.1)

/-! ## C1: frame length and fixed layout -/

/-- C1: for every service and every property mapping within the one-byte
limits (at most 255 entries, each value at most 255 bytes), `create_frame`
succeeds and returns `12 + 2*|properties| + Σ valueLengths` bytes whose
first ten bytes are the fixed constants `10 81 00 00 05 ff 01 01 30 01`,
followed by the service code byte and the property-count byte. -/
theorem create_frame_layout (s : Service) (l : List (Property × List Nat))
    (h1 : l.length ≤ 255) (h2 : ∀ kv ∈ l, kv.2.length ≤ 255) :
    ∃ f, create_frame s l = some f ∧
      f = [0x10, 0x81, 0x00, 0x00, 0x05, 0xff, 0x01, 0x01, 0x30, 0x01] ++
        s.value :: l.length :: l.flatMap propBytes ∧
      f.length = 12 + 2 * l.length + (l.map fun kv => kv.2.length).sum := by
  refine ⟨frameBytes s l, create_frame_eq s l h1 h2, rfl, ?_⟩
  simp only [frameBytes, List.length_append, List.length_cons, flatMap_propBytes_length]
  have hfh : FIXED_HEADER.length = 10 := rfl
  omega

/-- Witness for C1 at a concrete input: a SET-immediate frame with the
single property STATUS=ON is 15 bytes. -/
theorem create_frame_layout_witness :
    ∃ f, create_frame Service.SET_I [(Property.STATUS, [0x30])] = some f ∧
      f = [0x10, 0x81, 0x00, 0x00, 0x05, 0xff, 0x01, 0x01, 0x30, 0x01,
        0x60, 0x01, 0x80, 0x01, 0x30] ∧
      f.length = 15 := by
  obtain ⟨f, hf, hlayout, hlen⟩ :=
    create_frame_layout Service.SET_I [(Property.STATUS, [0x30])] (by decide) (by decide)
  exact ⟨f, hf, by rw [hlayout]; rfl, by rw [hlen]; rfl⟩

/-! ## C2: property order determines the bytes -/

/-- C2: the per-property entries are emitted in the mapping's iteration
order, so two mappings with the same entries in different orders (well
formed: distinct keys, within the one-byte limits) always encode to
different byte sequences. -/
theorem create_frame_order_sensitive (s : Service) (l1 l2 : List (Property × List Nat))
    (hnd : (l1.map Prod.fst).Nodup) (hperm : l1.Perm l2) (hne : l1 ≠ l2)
    (hlen : l1.length ≤ 255) (hval : ∀ kv ∈ l1, kv.2.length ≤ 255) :
    create_frame s l1 ≠ create_frame s l2 := by
  rw [create_frame_eq s l1 hlen hval,
    create_frame_eq s l2 (by rw [← hperm.length_eq]; exact hlen)
      fun kv hkv => hval kv (hperm.mem_iff.mpr hkv)]
  intro h
  apply flatMap_propBytes_ne l1 l2 hnd hperm hne
  have h' := Option.some.inj h
  simpa [frameBytes, FIXED_HEADER, hperm.length_eq] using h'

/-- Witness for C2: swapping STATUS and MODE changes the encoded bytes. -/
theorem create_frame_order_sensitive_witness :
    create_frame Service.SET_I [(Property.STATUS, [0x30]), (Property.MODE, [0x41])] ≠
      create_frame Service.SET_I [(Property.MODE, [0x41]), (Property.STATUS, [0x30])] :=
  create_frame_order_sensitive Service.SET_I _ _
    (by decide) (by decide) (by decide) (by decide) (by decide)

/-! ## C3: the failure condition of the codec -/

/-- C3: `create_frame` fails (Python `ValueError` from `bytearray.append`)
exactly when the mapping has more than 255 entries or some value is longer
than 255 bytes; on every input within those limits it succeeds. -/
theorem create_frame_failure_iff (s : Service) (l : List (Property × List Nat)) :
    create_frame s l = none ↔ 255 < l.length ∨ ∃ kv ∈ l, 255 < kv.2.length := by
  constructor
  · intro h
    by_contra hc
    push_neg at hc
    rw [create_frame_eq s l hc.1 hc.2] at h
    exact Option.noConfusion h
  · intro h
    rcases h with h | h
    · simp [create_frame, appendByte, service_code_le_byte s,
        show ¬ l.length ≤ 255 from by omega]
    · by_cases hl : l.length ≤ 255
      · simp [create_frame, appendByte, service_code_le_byte s, hl,
          appendProperties_none l _ h]
      · simp [create_frame, appendByte, service_code_le_byte s, hl]

/-! ## The frame built by `turn_on` -/

theorem turn_on_frame_eq (mode : Mode) (t : Int) (h : t ≤ 255) :
    turn_on_frame mode t = some (frameBytes Service.SET_I
      ([(Property.STATUS, [0x30]), (Property.MODE, mode.value)] ++
        if 0 ≤ t then [(Property.TEMPERATURE, [t.toNat])] else [])) := by
  by_cases h0 : 0 ≤ t <;>
    cases mode <;>
      simp [turn_on_frame, turn_on_props, int_to_byte, h0, h, Status.value, Mode.value,
        create_frame, appendByte, appendProperties, appendProperty, frameBytes,
        FIXED_HEADER, propBytes, Service.value, Property.value]

/-! ## C4 (amended): the properties sent by `turn_on` -/

/-- C4 is refuted as universally stated: with `temperature = 300` the
one-byte conversion `temperature.to_bytes(1, 'big')` overflows, so no
frame at all is built, although `300 ≥ 0` would require a frame with a
TEMPERATURE property. -/
theorem turn_on_300_no_frame :
    turn_on_frame Mode.HEATING 300 = none ∧ (0 : Int) ≤ 300 := by
  decide

/-- C4 (amended): for every mode and every temperature representable in
one byte (`temperature ≤ 255`), `turn_on` builds the SET-immediate frame
whose properties are STATUS=ON (`0x30`) and MODE=mode, with a TEMPERATURE
property — its value the single unsigned byte `temperature` — appended
exactly when `temperature ≥ 0`. -/
theorem turn_on_temperature_spec (mode : Mode) (t : Int) (h : t ≤ 255) :
    turn_on_frame mode t = some (frameBytes Service.SET_I
      ([(Property.STATUS, [0x30]), (Property.MODE, mode.value)] ++
        if 0 ≤ t then [(Property.TEMPERATURE, [t.toNat])] else [])) :=
  turn_on_frame_eq mode t h

/-- Witness for C4: at `temperature = 22` exactly one extra property
entry appears, with value byte `0x16`; at `temperature = -1` the
TEMPERATURE entry is absent. -/
theorem turn_on_temperature_spec_witness :
    turn_on_frame Mode.HEATING 22 =
      some [0x10, 0x81, 0x00, 0x00, 0x05, 0xff, 0x01, 0x01, 0x30, 0x01,
        0x60, 0x03, 0x80, 0x01, 0x30, 0xb0, 0x01, 0x43, 0xb3, 0x01, 0x16] ∧
    turn_on_frame Mode.DEHUMIDIFICATION (-1) =
      some [0x10, 0x81, 0x00, 0x00, 0x05, 0xff, 0x01, 0x01, 0x30, 0x01,
        0x60, 0x02, 0x80, 0x01, 0x30, 0xb0, 0x01, 0x44] := by
  constructor
  · rw [turn_on_temperature_spec Mode.HEATING 22 (by decide)]; rfl
  · rw [turn_on_temperature_spec Mode.DEHUMIDIFICATION (-1) (by decide)]; rfl

/-! ## C10: the one-byte temperature contract of `turn_on` -/

/-- C10: for every temperature above 255 the one-byte conversion
overflows and no frame is built or sent; for every temperature in
`[0, 255]` the conversion (and the whole frame construction) succeeds. -/
theorem turn_on_temperature_byte_range (mode : Mode) (t : Int) :
    (255 < t → turn_on_frame mode t = none) ∧
    (0 ≤ t → t ≤ 255 → (turn_on_frame mode t).isSome = true) := by
  constructor
  · intro hgt
    have h0 : 0 ≤ t := by omega
    have hz : int_to_byte t = none := by
      simp only [int_to_byte, ite_eq_right_iff]
      omega
    simp [turn_on_frame, turn_on_props, h0, hz]
  · intro h0 h255
    rw [turn_on_frame_eq mode t h255]
    rfl

/-- Witness for C10: temperature 300 builds no frame, temperature 100
succeeds. -/
theorem turn_on_temperature_byte_range_witness :
    turn_on_frame Mode.COOLING 300 = none ∧
    (turn_on_frame Mode.COOLING 100).isSome = true :=
  ⟨(turn_on_temperature_byte_range Mode.COOLING 300).1 (by decide),
   (turn_on_temperature_byte_range Mode.COOLING 100).2 (by decide) (by decide)⟩

/-! ## C5: value conversion is total; the sample body parses exactly -/

/-- C5: the value-conversion rule of the sensor parser is total over all
input strings — try integer parse, then floating-point parse, else keep
the text unchanged — and the sample body
`"ret=OK,htemp=20.5,hhum=25,otemp=6"` parses to exactly
`{ret: "OK", htemp: 20.5, hhum: 25, otemp: 6}`. -/
theorem number_total_and_sensor_parse :
    (∀ v : List Char,
      (∃ n, pyInt v = some n ∧ number v = Value.int n) ∨
      (pyInt v = none ∧ ∃ q, pyFloat v = some q ∧ number v = Value.float q) ∨
      (pyInt v = none ∧ pyFloat v = none ∧ number v = Value.str (String.mk v))) ∧
    get_sensor_info "ret=OK,htemp=20.5,hhum=25,otemp=6".toList =
      some [("ret", Value.str "OK"), ("htemp", Value.float (41 / 2 : ℚ)),
        ("hhum", Value.int 25), ("otemp", Value.int 6)] := by
  constructor
  · intro v
    rcases hi : pyInt v with _ | n
    · rcases hf : pyFloat v with _ | q
      · exact Or.inr (Or.inr ⟨rfl, rfl, by simp [number, hi, hf]⟩)
      · exact Or.inr (Or.inl ⟨rfl, q, rfl, by simp [number, hi, hf]⟩)
    · exact Or.inl ⟨n, rfl, by simp [number, hi]⟩
  · with_unfolding_all rfl

/-! ## C9: an entry without `=` makes the body parser fail -/

theorem splitOnce_eq_none_iff (sep : Char) (l : List Char) :
    splitOnce sep l = none ↔ sep ∉ l := by
  induction l with
  | nil => simp [splitOnce]
  | cons c cs ih =>
    by_cases hc : c = sep
    · simp [splitOnce, hc]
    · have hc' : ¬ sep = c := fun h => hc h.symm
      simp [splitOnce, hc, hc', Option.map_eq_none', ih]

theorem parseEntries_none (entries : List (List Char)) (info : List (String × Value))
    (h : ∃ e ∈ entries, '=' ∉ e) :
    parseEntries info entries = none := by
  induction entries generalizing info with
  | nil => simp at h
  | cons e rest ih =>
    rcases h with ⟨e', hmem, hno⟩
    rcases List.mem_cons.mp hmem with rfl | hmem'
    · simp [parseEntries, (splitOnce_eq_none_iff '=' e').mpr hno]
    · cases hsplit : splitOnce '=' e with
      | none => simp [parseEntries, hsplit]
      | some kv =>
        simp only [parseEntries, hsplit]
        exact ih _ ⟨e', hmem', hno⟩

/-- C9: the sensor-body parser is not total even though value conversion
is — whenever some comma-separated entry of the body contains no `=`
(for instance an empty body, or the body `"OK"`), `get_sensor_info`
fails with an index error (`none`) before returning any mapping. -/
theorem get_sensor_info_missing_eq_fails (body : List Char)
    (h : ∃ e ∈ splitAll ',' body, '=' ∉ e) :
    get_sensor_info body = none :=
  parseEntries_none (splitAll ',' body) [] h

/-- Witness for C9: the body `"OK"` (a well-formed HTTP body with no
`key=value` shape) makes `get_sensor_info` fail. -/
theorem get_sensor_info_missing_eq_fails_witness :
    get_sensor_info "OK".toList = none :=
  get_sensor_info_missing_eq_fails "OK".toList (by decide)

/-! ## C6: CLI dispatch of the `__main__` block -/

/-- C6 is refuted for unrecognized argument values: with the single
argument `"foo"` (outside `{off, on, info}`) the program does not print
usage and does not exit nonzero — it proceeds straight to the network
discovery call. -/
theorem cli_unrecognized_arg_not_rejected :
    main_start ["ac_controller.py", "foo"] = MainFirstStep.discover ∧
    main_start ["ac_controller.py", "foo"] ≠ MainFirstStep.usageExit 1 := by
  decide

/-- C6 (amended): with zero or two-plus positional arguments the program
prints the usage message and exits with status 1, with no network call
attempted; but with any single argument — recognized or not — it
proceeds to the discovery network call before ever examining the
argument's value. -/
theorem cli_dispatch_spec (argv : List String) :
    (main_start argv = MainFirstStep.usageExit 1 ↔ argv.length ≠ 2) ∧
    (argv.length = 2 → main_start argv = MainFirstStep.discover) := by
  by_cases h : argv.length = 2 <;> simp [main_start, h]

/-- Witness for C6: no argument prints usage and exits 1; the
unrecognized argument `"foo"` reaches the network. -/
theorem cli_dispatch_spec_witness :
    main_start ["ac_controller.py"] = MainFirstStep.usageExit 1 ∧
    main_start ["ac_controller.py", "foo"] = MainFirstStep.discover :=
  ⟨(cli_dispatch_spec ["ac_controller.py"]).1.mpr (by decide),
   (cli_dispatch_spec ["ac_controller.py", "foo"]).2 (by decide)⟩

/-! ## C7: the size of the discovery frame -/

/-- C7 is refuted as stated: the GET/STATUS discovery frame is not 13
bytes long. -/
theorem discovery_frame_not_13_bytes :
    (create_frame Service.GET [(Property.STATUS, [])]).map List.length ≠ some 13 := by
  decide

/-- C7 (amended): encoding a GET frame carrying the single property
STATUS with an empty value yields exactly 14 bytes — 10 bytes of
header/addressing, 1 service byte, 1 property-count byte, 1 property
code, 1 value length, 0 value bytes — matching the spec's own precise
computation of the §4.1 layout. -/
theorem discovery_frame_14_bytes :
    create_frame Service.GET [(Property.STATUS, [])] =
      some [0x10, 0x81, 0x00, 0x00, 0x05, 0xff, 0x01, 0x01, 0x30, 0x01,
        0x62, 0x01, 0x80, 0x00] ∧
    (create_frame Service.GET [(Property.STATUS, [])]).map List.length = some 14 := by
  decide

/-! ## C8: discovery returns the responder's address -/

/-- C8: `find_air_conditioner` sends the GET/STATUS discovery frame to
the fixed multicast group `224.0.23.0:3610` from a socket bound to
`0.0.0.0:3610`, performs a single blocking receive on the same socket,
and returns exactly the sender's IP address of the one datagram received,
regardless of that datagram's payload. -/
theorem find_air_conditioner_returns_sender (d : Datagram) :
    find_air_conditioner d =
      some ([SocketEvent.bindTo "0.0.0.0" 3610,
        SocketEvent.sendto [0x10, 0x81, 0x00, 0x00, 0x05, 0xff, 0x01, 0x01, 0x30, 0x01,
          0x62, 0x01, 0x80, 0x00] "224.0.23.0" 3610,
        SocketEvent.recvfrom 4096], d.srcIp) := by
  rfl

end AcController
